import Mathlib

/-!
Shallow embedding of the recommendation-and-savings engine of the residential
energy-audit repository (files utility_rates.py, savings_calculator.py,
audit_engine.py, report_generator.py), together with theorems settling the
frozen claims about it.

Conventions of the embedding:
* Python floats are modelled as rationals (ℚ); literals such as 0.1 become 1/10.
* The value float("inf") used for payback periods is modelled by ⊤ in WithTop ℚ.
* Python dictionaries holding fixed keys become structures; dictionary .get
  lookups with defaults become Option-valued table functions plus getD.
* Fuel-type and division strings stay String, compared with decidable equality.
-/

namespace EnergyAudit

/-! ## Conversion constants (utility_rates.py, lines 80-83) -/

def KBTU_TO_KWH : ℚ := 293/1000

def KBTU_TO_THERM : ℚ := 1/100

def THERM_TO_KWH : ℚ := 293/10

/-! ## Rate tables (utility_rates.py, lines 10-78)

ELECTRICITY_RATES and GAS_RATES are two-level dicts: a region key maps to a
sub-dict of division-specific rates (including a "default" entry), while the
top-level "default" key maps to a bare number. The sub-dicts are modelled as
Option-valued functions on (region, division); the bare national averages are
inlined at the lookup sites exactly where the code reads them. -/

def elec_division_rate (region division : String) : Option ℚ :=
  if region = "Northeast" then
    if division = "New England" then some (22/100)
    else if division = "Middle Atlantic" then some (16/100)
    else if division = "default" then some (19/100)
    else none
  else if region = "Midwest" then
    if division = "East North Central" then some (13/100)
    else if division = "West North Central" then some (12/100)
    else if division = "default" then some (125/1000)
    else none
  else if region = "South" then
    if division = "South Atlantic" then some (12/100)
    else if division = "East South Central" then some (11/100)
    else if division = "West South Central" then some (11/100)
    else if division = "default" then some (113/1000)
    else none
  else if region = "West" then
    if division = "Mountain" then some (12/100)
    else if division = "Pacific" then some (18/100)
    else if division = "default" then some (15/100)
    else none
  else none

def gas_division_rate (region division : String) : Option ℚ :=
  if region = "Northeast" then
    if division = "New England" then some (18/10)
    else if division = "Middle Atlantic" then some (12/10)
    else if division = "default" then some (15/10)
    else none
  else if region = "Midwest" then
    if division = "East North Central" then some 1
    else if division = "West North Central" then some (9/10)
    else if division = "default" then some (95/100)
    else none
  else if region = "South" then
    if division = "South Atlantic" then some (11/10)
    else if division = "East South Central" then some 1
    else if division = "West South Central" then some (85/100)
    else if division = "default" then some (98/100)
    else none
  else if region = "West" then
    if division = "Mountain" then some (95/100)
    else if division = "Pacific" then some (14/10)
    else if division = "default" then some (118/100)
    else none
  else none

def propane_region_rate (region : String) : Option ℚ :=
  if region = "Northeast" then some (28/10)
  else if region = "Midwest" then some (22/10)
  else if region = "South" then some (21/10)
  else if region = "West" then some (25/10)
  else none

def fuel_oil_region_rate (region : String) : Option ℚ :=
  if region = "Northeast" then some (32/10)
  else if region = "Midwest" then some 3
  else if region = "South" then some (31/10)
  else if region = "West" then some (33/10)
  else none

/-! ## UtilityRates (utility_rates.py, lines 86-195) -/

/-- Optional custom rate overrides, modelling the custom_rates dict whose keys
"elec", "gas", "propane", "fuel_oil" may each be present or absent. -/
structure CustomRates where
  elec : Option ℚ
  gas : Option ℚ
  propane : Option ℚ
  fuel_oil : Option ℚ
deriving DecidableEq

def no_custom_rates : CustomRates := ⟨none, none, none, none⟩

/-- A UtilityRates instance. The division field models the division
constructor argument (none models Python None; the empty string, which Python
treats as falsy, is handled explicitly in the derived attributes). The state
argument is never read by any method and is omitted. -/
structure UtilityRates where
  division : Option String
  custom_rates : CustomRates
deriving DecidableEq

/-- Substring containment, modelling the Python expression needle in hay. -/
def strContains (hay needle : String) : Bool :=
  let h := hay.toList
  let n := needle.toList
  (List.range (h.length + 1)).any (fun i => (h.drop i).take n.length == n)

/-- The attribute self.division set in the constructor: division or "default"
(Python or treats None and the empty string as falsy). -/
def UtilityRates.division_attr (u : UtilityRates) : String :=
  match u.division with
  | none => "default"
  | some d => if d = "" then "default" else d

/-- The attribute self.region computed in the constructor from the division
argument by substring matching (utility_rates.py, lines 102-116). -/
def UtilityRates.region (u : UtilityRates) : String :=
  match u.division with
  | none => "default"
  | some d =>
    if d = "" then "default"
    else if strContains d "Northeast" || strContains d "New England" ||
        strContains d "Middle Atlantic" then "Northeast"
    else if strContains d "Midwest" || strContains d "North Central" then "Midwest"
    else if strContains d "South" then "South"
    else if strContains d "West" || strContains d "Mountain" ||
        strContains d "Pacific" then "West"
    else "default"

/-- True when the region is one of the four keys whose ELECTRICITY_RATES /
GAS_RATES entry is a sub-dict (isinstance(region_rates, dict) in the code). -/
def is_dict_region (region : String) : Bool :=
  region = "Northeast" || region = "Midwest" || region = "South" || region = "West"

/-- get_electricity_rate (utility_rates.py, lines 118-129): custom override
first; otherwise the region sub-dict is consulted for the division key, falling
back to the sub-dict "default" entry and finally the national average 0.14.
self.division is always truthy (the constructor substitutes "default"), so the
division lookup is always attempted when the region entry is a dict. -/
def UtilityRates.get_electricity_rate (u : UtilityRates) : ℚ :=
  match u.custom_rates.elec with
  | some r => r
  | none =>
    if is_dict_region u.region then
      match elec_division_rate u.region u.division_attr with
      | some r => r
      | none => (elec_division_rate u.region "default").getD (14/100)
    else 14/100

/-- get_gas_rate (utility_rates.py, lines 131-141), same shape with the gas
tables and national average 1.20. -/
def UtilityRates.get_gas_rate (u : UtilityRates) : ℚ :=
  match u.custom_rates.gas with
  | some r => r
  | none =>
    if is_dict_region u.region then
      match gas_division_rate u.region u.division_attr with
      | some r => r
      | none => (gas_division_rate u.region "default").getD (12/10)
    else 12/10

/-- get_propane_rate (utility_rates.py, lines 143-147). -/
def UtilityRates.get_propane_rate (u : UtilityRates) : ℚ :=
  match u.custom_rates.propane with
  | some r => r
  | none => (propane_region_rate u.region).getD (24/10)

/-- get_fuel_oil_rate (utility_rates.py, lines 149-153). -/
def UtilityRates.get_fuel_oil_rate (u : UtilityRates) : ℚ :=
  match u.custom_rates.fuel_oil with
  | some r => r
  | none => (fuel_oil_region_rate u.region).getD (315/100)

/-- kbtu_to_dollars (utility_rates.py, lines 155-184). The blended branch of
the source makes two recursive calls on the "gas" and "elec" branches with
0.6 and 0.4 of the energy; those calls are inlined here. -/
def UtilityRates.kbtu_to_dollars (u : UtilityRates) (kbtu : ℚ) (fuel_type : String) : ℚ :=
  if fuel_type = "elec" then kbtu * KBTU_TO_KWH * u.get_electricity_rate
  else if fuel_type = "gas" then kbtu * KBTU_TO_THERM * u.get_gas_rate
  else if fuel_type = "propane" then kbtu / 91 * u.get_propane_rate
  else if fuel_type = "fuel_oil" then kbtu / 138 * u.get_fuel_oil_rate
  else kbtu * (6/10) * KBTU_TO_THERM * u.get_gas_rate
    + kbtu * (4/10) * KBTU_TO_KWH * u.get_electricity_rate

/-- UtilityRates constructed with no arguments (division=None, no custom
rates), as produced by UtilityRates(). -/
def default_rates : UtilityRates := ⟨none, no_custom_rates⟩

/-! ## SavingsCalculator (savings_calculator.py) -/

/-- The per-measure savings dict returned by every calculate_* method:
keys annual_kbtu, annual_kwh, annual_therms, annual_dollars, lifetime_years. -/
structure Savings where
  annual_kbtu : ℚ
  annual_kwh : ℚ
  annual_therms : ℚ
  annual_dollars : ℚ
  lifetime_years : ℕ
deriving DecidableEq

/-- The zero-savings sentinel returned by _zero_savings
(savings_calculator.py, lines 412-420). -/
def zero_savings : Savings := ⟨0, 0, 0, 0, 0⟩

/-- A SavingsCalculator instance: its rates attribute and the hdd and cdd
values read from climate_data in the constructor (defaults 5500 and 800).
The equipment_lifespans dict is constant; the getter is below. -/
structure SavingsCalculator where
  rates : UtilityRates
  hdd : ℚ
  cdd : ℚ
deriving DecidableEq

/-- SavingsCalculator() with all defaults (default rates, hdd=5500, cdd=800). -/
def default_calculator : SavingsCalculator := ⟨default_rates, 5500, 800⟩

/-- The equipment_lifespans dict (savings_calculator.py, lines 37-50). -/
def equipment_lifespans (key : String) : Option ℕ :=
  if key = "furnace" then some 20
  else if key = "boiler" then some 25
  else if key = "heat_pump" then some 15
  else if key = "ac" then some 15
  else if key = "water_heater" then some 12
  else if key = "refrigerator" then some 15
  else if key = "dishwasher" then some 12
  else if key = "washer" then some 12
  else if key = "dryer" then some 12
  else if key = "windows" then some 25
  else if key = "insulation" then some 50
  else if key = "solar_pv" then some 25
  else none

/-- calculate_insulation_savings (savings_calculator.py, lines 52-101).
The surface_type argument is accepted but never read by the source body.
Divisions are by current_r_value + 0.1 and new_r_value + 0.1; the predicate
insulation_savings_div_by_zero below records exactly when Python would raise
ZeroDivisionError (rational division by zero in this total model yields 0). -/
def SavingsCalculator.calculate_insulation_savings (c : SavingsCalculator)
    (current_r_value new_r_value sqft : ℚ)
    (surface_type heating_fuel : String) : Savings :=
  if new_r_value ≤ current_r_value then zero_savings
  else
    let heat_loss_old := sqft * c.hdd / (current_r_value + 1/10)
    let heat_loss_new := sqft * c.hdd / (new_r_value + 1/10)
    let annual_kbtu_savings := heat_loss_old - heat_loss_new
    let annual_kwh := annual_kbtu_savings * KBTU_TO_KWH
    let annual_therms := annual_kbtu_savings * KBTU_TO_THERM
    let annual_dollars := c.rates.kbtu_to_dollars annual_kbtu_savings heating_fuel
    ⟨max 0 annual_kbtu_savings, max 0 annual_kwh, max 0 annual_therms,
      max 0 annual_dollars, (equipment_lifespans "insulation").getD 50⟩

/-- The set of inputs on which calculate_insulation_savings executes a
division whose denominator is zero, i.e. on which Python raises
ZeroDivisionError: the guard current_r_value ≥ new_r_value returns the
sentinel before any division, and otherwise lines 83-84 divide by
current_r_value + 0.1 and new_r_value + 0.1. -/
def insulation_savings_div_by_zero (current_r_value new_r_value : ℚ) : Prop :=
  current_r_value < new_r_value ∧
    (current_r_value + 1/10 = 0 ∨ new_r_value + 1/10 = 0)

instance (a b : ℚ) : Decidable (insulation_savings_div_by_zero a b) := by
  unfold insulation_savings_div_by_zero; infer_instance

/-- calculate_hvac_upgrade_savings (savings_calculator.py, lines 103-146).
Efficiencies greater than 1 are interpreted as percentages and divided
by 100; the lifetime is the furnace entry for gas and heat_pump otherwise. -/
def SavingsCalculator.calculate_hvac_upgrade_savings (c : SavingsCalculator)
    (old_efficiency new_efficiency heating_load_kbtu : ℚ)
    (fuel_type : String) : Savings :=
  if new_efficiency ≤ old_efficiency ∨ old_efficiency ≤ 0 then zero_savings
  else
    let old_eff := if 1 < old_efficiency then old_efficiency / 100 else old_efficiency
    let new_eff := if 1 < new_efficiency then new_efficiency / 100 else new_efficiency
    let annual_kbtu_savings := heating_load_kbtu / old_eff - heating_load_kbtu / new_eff
    ⟨max 0 annual_kbtu_savings,
      max 0 (annual_kbtu_savings * KBTU_TO_KWH),
      max 0 (annual_kbtu_savings * KBTU_TO_THERM),
      max 0 (c.rates.kbtu_to_dollars annual_kbtu_savings fuel_type),
      (equipment_lifespans (if fuel_type = "gas" then "furnace" else "heat_pump")).getD 20⟩

/-- calculate_cooling_upgrade_savings (savings_calculator.py, lines 148-175). -/
def SavingsCalculator.calculate_cooling_upgrade_savings (c : SavingsCalculator)
    (old_seer new_seer cooling_load_kbtu : ℚ) : Savings :=
  if new_seer ≤ old_seer ∨ old_seer ≤ 0 then zero_savings
  else
    let old_input_kwh := cooling_load_kbtu * 1000 / old_seer
    let new_input_kwh := cooling_load_kbtu * 1000 / new_seer
    let annual_kwh_savings := old_input_kwh - new_input_kwh
    let annual_kbtu_savings := annual_kwh_savings / KBTU_TO_KWH
    ⟨max 0 annual_kbtu_savings, max 0 annual_kwh_savings, 0,
      max 0 (annual_kwh_savings * c.rates.get_electricity_rate),
      (equipment_lifespans "ac").getD 15⟩

/-- calculate_window_upgrade_savings (savings_calculator.py, lines 177-220).
The optional hdd and cdd arguments default to None; the body then takes
hdd or self.hdd, under which both None and the float 0.0 fall back to the
instance value (Python or treats 0.0 as falsy). -/
def SavingsCalculator.calculate_window_upgrade_savings (c : SavingsCalculator)
    (old_u_factor new_u_factor window_sqft : ℚ)
    (hdd_arg cdd_arg : Option ℚ) : Savings :=
  if old_u_factor ≤ new_u_factor ∨ old_u_factor ≤ 0 then zero_savings
  else
    let hdd := match hdd_arg with
      | none => c.hdd
      | some v => if v = 0 then c.hdd else v
    let cdd := match cdd_arg with
      | none => c.cdd
      | some v => if v = 0 then c.cdd else v
    let heating_savings_kbtu := (old_u_factor - new_u_factor) * window_sqft * hdd * (24/1000)
    let cooling_savings_kbtu := (old_u_factor - new_u_factor) * window_sqft * cdd * (18/1000)
    let total_kbtu_savings := heating_savings_kbtu + cooling_savings_kbtu
    let annual_kwh := total_kbtu_savings * KBTU_TO_KWH
    let heating_dollars := c.rates.kbtu_to_dollars heating_savings_kbtu "gas"
    let cooling_dollars := annual_kwh * (4/10) * c.rates.get_electricity_rate
    ⟨max 0 total_kbtu_savings, max 0 annual_kwh,
      max 0 (heating_savings_kbtu * KBTU_TO_THERM),
      max 0 (heating_dollars + cooling_dollars),
      (equipment_lifespans "windows").getD 25⟩

/-- calculate_appliance_savings (savings_calculator.py, lines 222-240). -/
def SavingsCalculator.calculate_appliance_savings (c : SavingsCalculator)
    (old_kwh_year new_kwh_year : ℚ) : Savings :=
  let annual_kwh_savings := old_kwh_year - new_kwh_year
  let annual_kbtu_savings := annual_kwh_savings / KBTU_TO_KWH
  ⟨max 0 annual_kbtu_savings, max 0 annual_kwh_savings, 0,
    max 0 (annual_kwh_savings * c.rates.get_electricity_rate),
    (equipment_lifespans "refrigerator").getD 15⟩

/-- calculate_water_heater_savings (savings_calculator.py, lines 242-274),
structurally identical to the HVAC upgrade with the water_heater lifetime. -/
def SavingsCalculator.calculate_water_heater_savings (c : SavingsCalculator)
    (old_efficiency new_efficiency water_heating_kbtu : ℚ)
    (fuel_type : String) : Savings :=
  if new_efficiency ≤ old_efficiency ∨ old_efficiency ≤ 0 then zero_savings
  else
    let old_eff := if 1 < old_efficiency then old_efficiency / 100 else old_efficiency
    let new_eff := if 1 < new_efficiency then new_efficiency / 100 else new_efficiency
    let annual_kbtu_savings := water_heating_kbtu / old_eff - water_heating_kbtu / new_eff
    ⟨max 0 annual_kbtu_savings,
      max 0 (annual_kbtu_savings * KBTU_TO_KWH),
      max 0 (annual_kbtu_savings * KBTU_TO_THERM),
      max 0 (c.rates.kbtu_to_dollars annual_kbtu_savings fuel_type),
      (equipment_lifespans "water_heater").getD 12⟩

/-- The sun_hours_by_region dict of calculate_solar_savings
(savings_calculator.py, lines 290-296), read with .get(region, default). -/
def sun_hours_by_region (region : String) : ℚ :=
  if region = "Northeast" then 1200
  else if region = "Midwest" then 1400
  else if region = "South" then 1600
  else if region = "West" then 1800
  else 1500

/-- The orientation_factors dict of calculate_solar_savings
(savings_calculator.py, lines 302-308), read with
.get(roof_orientation.lower(), 1.0). -/
def orientation_factor_of (o : String) : ℚ :=
  if o = "south" then 1
  else if o = "east" then 85/100
  else if o = "west" then 85/100
  else if o = "north" then 60/100
  else 1

/-- calculate_solar_savings (savings_calculator.py, lines 276-324). The
location parameter is accepted by the source but never read and is omitted. -/
def SavingsCalculator.calculate_solar_savings (c : SavingsCalculator)
    (system_size_kw : ℚ) (roof_orientation : String)
    (shading_factor : ℚ) : Savings :=
  let base_sun_hours := sun_hours_by_region c.rates.region
  let orientation_factor := orientation_factor_of roof_orientation.toLower
  let annual_kwh := system_size_kw * base_sun_hours * orientation_factor
    * shading_factor * (85/100)
  let annual_kbtu := annual_kwh / KBTU_TO_KWH
  let annual_dollars := annual_kwh * c.rates.get_electricity_rate
  ⟨max 0 annual_kbtu, max 0 annual_kwh, 0, max 0 annual_dollars,
    (equipment_lifespans "solar_pv").getD 25⟩

/-! ## Financial results (savings_calculator.py, lines 360-388) -/

/-- The dict returned by calculate_payback_roi. payback_years is a rational
extended with ⊤ modelling float("inf"). -/
structure Financial where
  payback_years : WithTop ℚ
  roi_percent : ℚ
deriving DecidableEq

/-- calculate_payback_roi (savings_calculator.py, lines 360-388). A method on
SavingsCalculator in the source, but it reads no instance state, so it is a
plain function here. The only division, net_cost / annual_savings_dollars,
sits behind the guard annual_savings_dollars > 0. -/
def calculate_payback_roi (upfront_cost annual_savings_dollars : ℚ)
    (rebates : ℚ) : Financial :=
  let net_cost := upfront_cost - rebates
  if annual_savings_dollars ≤ 0 then ⟨⊤, 0⟩
  else
    ⟨((net_cost / annual_savings_dollars : ℚ) : WithTop ℚ),
      if 0 < net_cost then (annual_savings_dollars * 10 - net_cost) / net_cost * 100
      else 0⟩

/-! ## Recommendations and the AuditEngine analyzers (audit_engine.py)

A full recommendation dict carries many presentation fields; the claims only
concern which recommendations are emitted, their identity, their annual-dollar
savings, and the payback field used as the sort key.  Rec is the projection of
the dict onto those fields.  financial.payback_years in the dict is displayed
with round(x, 1); that presentation rounding affects neither rule firing nor
any claim below (the sort claim quantifies over arbitrary Rec lists), so the
payback_years field here holds the value from calculate_payback_roi. -/

structure Rec where
  id : String
  title : String
  payback_years : WithTop ℚ
  annual_dollars : ℚ
deriving DecidableEq

/-- The age lookup {1:2, 2:3, 3:8, 4:13, 5:18, 6:25}.get(acequipage, 10)
(audit_engine.py, line 259). -/
def equipment_age_years (acequipage : ℤ) : ℚ :=
  if acequipage = 1 then 2
  else if acequipage = 2 then 3
  else if acequipage = 3 then 8
  else if acequipage = 4 then 13
  else if acequipage = 5 then 18
  else if acequipage = 6 then 25
  else 10

/-- _analyze_heating_system (audit_engine.py, lines 249-334).  Arguments are
the profile fields the method reads, already parsed: acequipage is
_safe_int(profile.get("ACEQUIPAGE", "3")), protherm is profile.get("PROTHERM",
"0"), sqft is profile.get("TOTSQFT_EN", 2000), and heat_kbtu is
breakdown.get("heating_kbtu", 0); EQUIPM and FUELHEAT are read but never used.
The furnace rule (rec_heating_001) is gated on annual_dollars > 200; the smart
thermostat rule (rec_heating_002, lines 297-332) appends its recommendation
unconditionally once its structural trigger holds. -/
def analyze_heating_system (c : SavingsCalculator) (acequipage : ℤ)
    (protherm : String) (sqft heat_kbtu : ℚ) : List Rec :=
  let age_years := equipment_age_years acequipage
  let furnace_recs :=
    if 15 < age_years ∧ 30000 < heat_kbtu then
      let old_afue := max 60 (95 - age_years * (3/2))
      let savings_data := c.calculate_hvac_upgrade_savings old_afue 95 heat_kbtu "gas"
      if 200 < savings_data.annual_dollars then
        let cost_estimate := 3500 + (sqft - 1500) * (3/2)
        let financial := calculate_payback_roi cost_estimate savings_data.annual_dollars 600
        [⟨"rec_heating_001", "Upgrade to 95% AFUE Furnace",
          financial.payback_years, savings_data.annual_dollars⟩]
      else []
    else []
  let thermostat_recs :=
    if protherm = "0" ∧ 20000 < heat_kbtu then
      let savings_kbtu := heat_kbtu * (8/100)
      let annual_dollars := c.rates.kbtu_to_dollars savings_kbtu "gas"
      let financial := calculate_payback_roi 250 annual_dollars 0
      [⟨"rec_heating_002", "Install Smart Thermostat",
        financial.payback_years, annual_dollars⟩]
    else []
  furnace_recs ++ thermostat_recs

/-- _analyze_building_envelope (audit_engine.py, lines 92-247).  Arguments
are the parsed profile and breakdown fields the method reads: adq_insul =
_safe_int(ADQINSUL), attic = ATTIC, year_built = _parse_year(YEARMADERANGE),
windows = _safe_int(WINDOWS), typeglass = TYPEGLASS, drafty = _safe_int(DRAFTY),
heat_kbtu and cool_kbtu from the breakdown, sqft = TOTSQFT_EN; WALLTYPE is
read but never used.  The attic recommendation is produced through the
professional generator whose id suffix is a Python hash of the title (process
dependent), so its id is modelled by a fixed placeholder and the claims
identify that recommendation by its title. -/
def analyze_building_envelope (c : SavingsCalculator) (adq_insul : ℤ)
    (attic : String) (year_built : ℤ) (windows : ℤ) (typeglass : String)
    (drafty : ℤ) (heat_kbtu cool_kbtu sqft : ℚ) : List Rec :=
  let attic_recs :=
    if 2 ≤ adq_insul ∧ (attic = "1" ∨ attic = "2") ∧ 20000 < heat_kbtu then
      let current_r : ℚ := if adq_insul = 2 then 19 else 10
      let attic_sqft := sqft * (9/10)
      let savings_data := c.calculate_insulation_savings current_r 49 attic_sqft "attic" "gas"
      if 100 < savings_data.annual_dollars then
        let cost_estimate := 2500 + (attic_sqft - 1000) * (3/2)
        let financial := calculate_payback_roi cost_estimate savings_data.annual_dollars 500
        [⟨"rec_building_envelope_hash", "Upgrade Attic Insulation to R-49",
          financial.payback_years, savings_data.annual_dollars⟩]
      else []
    else []
  let wall_recs :=
    if year_built < 1980 ∧ 30000 < heat_kbtu then
      let savings_data := c.calculate_insulation_savings 5 15 (sqft * (5/2)) "wall" "gas"
      if 200 < savings_data.annual_dollars then
        let cost_estimate := 8000 + (sqft - 1500) * 3
        let financial := calculate_payback_roi cost_estimate savings_data.annual_dollars 1000
        [⟨"rec_envelope_002", "Add Wall Insulation",
          financial.payback_years, savings_data.annual_dollars⟩]
      else []
    else []
  let window_recs :=
    if 3 ≤ windows ∧ (25000 < heat_kbtu ∨ 15000 < cool_kbtu) then
      let window_sqft := sqft * (15/100)
      let old_u : ℚ := if typeglass = "1" ∨ typeglass = "2" then 12/10 else 1/2
      let savings_data := c.calculate_window_upgrade_savings old_u (3/10) window_sqft none none
      if 150 < savings_data.annual_dollars then
        let cost_estimate := window_sqft * 400
        let financial := calculate_payback_roi cost_estimate savings_data.annual_dollars 500
        [⟨"rec_envelope_003", "Replace Windows with Energy-Efficient Models",
          financial.payback_years, savings_data.annual_dollars⟩]
      else []
    else []
  let seal_recs :=
    if 2 ≤ drafty ∧ (20000 < heat_kbtu ∨ 10000 < cool_kbtu) then
      let savings_kbtu := (heat_kbtu + cool_kbtu) * (15/100)
      let annual_dollars := c.rates.kbtu_to_dollars savings_kbtu "blended"
      if 50 < annual_dollars then
        let cost_estimate := 400 + (sqft - 1000) * (3/10)
        let financial := calculate_payback_roi cost_estimate annual_dollars 0
        [⟨"rec_envelope_004", "Air Sealing & Weatherstripping",
          financial.payback_years, annual_dollars⟩]
      else []
    else []
  attic_recs ++ wall_recs ++ window_recs ++ seal_recs

/-- _analyze_cooling_system (audit_engine.py, lines 336-380). Arguments are
the fields the method uses: acequipage = _safe_int(ACEQUIPAGE), cool_kbtu
from the breakdown, sqft = TOTSQFT_EN; ACEQUIPM_PUB is read but never used.
Single rule rec_cooling_001, gated on annual_dollars > 150. -/
def analyze_cooling_system (c : SavingsCalculator) (acequipage : ℤ)
    (cool_kbtu sqft : ℚ) : List Rec :=
  let age_years := equipment_age_years acequipage
  if 12 < age_years ∧ 10000 < cool_kbtu then
    let old_seer := max 8 (16 - age_years * (5/10))
    let savings_data := c.calculate_cooling_upgrade_savings old_seer 18 cool_kbtu
    if 150 < savings_data.annual_dollars then
      let cost_estimate := 4000 + (sqft - 1500) * 2
      let financial := calculate_payback_roi cost_estimate savings_data.annual_dollars 500
      [⟨"rec_cooling_001", "Upgrade to SEER 18 Air Conditioner",
        financial.payback_years, savings_data.annual_dollars⟩]
    else []
  else []

/-- _analyze_water_heating (audit_engine.py, lines 382-459). Arguments:
fuel_h2o = FUELH2O and wh_kbtu from the breakdown; WHEATAGE is read but never
used. Heat-pump rule rec_water_001 gated on annual_dollars > 100; tankless
rule rec_water_002 gated on annual_dollars > 150. -/
def analyze_water_heating (c : SavingsCalculator) (fuel_h2o : String)
    (wh_kbtu : ℚ) : List Rec :=
  let hp_recs :=
    if fuel_h2o = "1" ∧ 10000 < wh_kbtu then
      let savings_data := c.calculate_water_heater_savings (90/100) (250/100) wh_kbtu "elec"
      if 100 < savings_data.annual_dollars then
        let financial := calculate_payback_roi 2500 savings_data.annual_dollars 800
        [⟨"rec_water_001", "Install Heat Pump Water Heater",
          financial.payback_years, savings_data.annual_dollars⟩]
      else []
    else []
  let tankless_recs :=
    if (fuel_h2o = "2" ∨ fuel_h2o = "3") ∧ 12000 < wh_kbtu then
      let savings_data := c.calculate_water_heater_savings (60/100) (95/100) wh_kbtu "gas"
      if 150 < savings_data.annual_dollars then
        let financial := calculate_payback_roi 3000 savings_data.annual_dollars 500
        [⟨"rec_water_002", "Install Tankless Water Heater",
          financial.payback_years, savings_data.annual_dollars⟩]
      else []
    else []
  hp_recs ++ tankless_recs

/-- _analyze_appliances (audit_engine.py, lines 461-499). Arguments:
num_frig = _safe_int(NUMFRIG), age_frig = _safe_int(AGERFRI1),
baseload_kbtu from the breakdown. Single rule rec_appliance_001, gated on
annual_dollars > 50. -/
def analyze_appliances (c : SavingsCalculator) (num_frig age_frig : ℤ)
    (baseload_kbtu : ℚ) : List Rec :=
  if (1 < num_frig ∨ 4 ≤ age_frig) ∧ 5000 < baseload_kbtu then
    let savings_data := c.calculate_appliance_savings 700 350
    if 50 < savings_data.annual_dollars then
      let cost_estimate : ℚ := if 1 < num_frig then 800 else 1200
      let financial := calculate_payback_roi cost_estimate savings_data.annual_dollars 0
      [⟨"rec_appliance_001",
        if num_frig = 1 then "Upgrade to ENERGY STAR Refrigerator"
        else "Remove or Upgrade Second Refrigerator",
        financial.payback_years, savings_data.annual_dollars⟩]
    else []
  else []

/-- _analyze_lighting (audit_engine.py, lines 501-539). Argument:
lgtincan = _safe_int(LGTINCAN); LGTINLED is read but never used. Single rule
rec_lighting_001, gated on annual_dollars > 100; the cost 30 * 5 = 150. -/
def analyze_lighting (c : SavingsCalculator) (lgtincan : ℤ) : List Rec :=
  if 2 ≤ lgtincan then
    let savings_data := c.calculate_appliance_savings 2628 394
    if 100 < savings_data.annual_dollars then
      let financial := calculate_payback_roi 150 savings_data.annual_dollars 0
      [⟨"rec_lighting_001", "Convert to LED Bulbs",
        financial.payback_years, savings_data.annual_dollars⟩]
    else []
  else []

/-- _analyze_renewable_energy (audit_engine.py, lines 541-580). Argument:
total_kbtu; TOTSQFT_EN is read but never used. Single rule rec_renewable_001,
gated on annual_dollars > 500. The title interpolates the system size with
one-decimal float formatting; only the id identifies this recommendation, so
the title is modelled by a fixed placeholder. -/
def analyze_renewable_energy (c : SavingsCalculator) (total_kbtu : ℚ) : List Rec :=
  if 50000 < total_kbtu then
    let annual_kwh := total_kbtu * (293/1000)
    let system_size_kw := annual_kwh * (8/10) / 1500
    let savings_data := c.calculate_solar_savings system_size_kw "south" (9/10)
    if 500 < savings_data.annual_dollars then
      let cost_estimate := system_size_kw * 3000
      let financial := calculate_payback_roi cost_estimate savings_data.annual_dollars
        (system_size_kw * 1000)
      [⟨"rec_renewable_001", "Install Solar PV System",
        financial.payback_years, savings_data.annual_dollars⟩]
    else []
  else []

/-- _analyze_smart_home (audit_engine.py, lines 582-621). Arguments:
smartmeter = SMARTMETER and baseload_kbtu from the breakdown. Single rule
rec_smart_001, gated on annual_dollars > 50. -/
def analyze_smart_home (c : SavingsCalculator) (smartmeter : String)
    (baseload_kbtu : ℚ) : List Rec :=
  if smartmeter = "0" then
    let savings_kbtu := baseload_kbtu * (5/100)
    let annual_dollars := c.rates.kbtu_to_dollars savings_kbtu "blended"
    if 50 < annual_dollars then
      let financial := calculate_payback_roi 200 annual_dollars 0
      [⟨"rec_smart_001", "Install Energy Monitoring System",
        financial.payback_years, annual_dollars⟩]
    else []
  else []

/-- _analyze_behavioral (audit_engine.py, lines 623-658). Arguments:
temphome = _safe_int(TEMPHOME) and heat_kbtu from the breakdown. Single rule
rec_behavioral_001, gated on annual_dollars > 30; its financial dict is the
literal with payback_years 0. -/
def analyze_behavioral (c : SavingsCalculator) (temphome : ℤ)
    (heat_kbtu : ℚ) : List Rec :=
  if 72 < temphome then
    let savings_kbtu := heat_kbtu * (5/100)
    let annual_dollars := c.rates.kbtu_to_dollars savings_kbtu "gas"
    if 30 < annual_dollars then
      [⟨"rec_behavioral_001", "Optimize Temperature Settings",
        ((0 : ℚ) : WithTop ℚ), annual_dollars⟩]
    else []
  else []

/-! ## generate_recommendations (audit_engine.py, lines 56-90)

The method concatenates the outputs of the nine category analyzers, evaluated
in the fixed order 1 through 9, and returns
sorted(recs, key=lambda x: x.get("financial", \x7b\x7d).get("payback_years", 999)).
Every recommendation constructed by the engine carries a
financial.payback_years entry (both _create_recommendation and the
professional generator emit it), so the key is always that field; it is
modelled by payback_key below.  Python sorted is a stable sort; it is modelled
by insertion sort, which is proved below to be a stable sort for this key.
The nine analyzers are abstracted as their output lists, so the sort theorem
quantifies over every profile, breakdown, and total. -/

def payback_key (r : Rec) : WithTop ℚ := r.payback_years

def recLE (a b : Rec) : Prop := payback_key a ≤ payback_key b

instance : DecidableRel recLE :=
  fun a b => inferInstanceAs (Decidable (payback_key a ≤ payback_key b))

instance : IsTotal Rec recLE := ⟨fun a b => le_total (payback_key a) (payback_key b)⟩

instance : IsTrans Rec recLE := ⟨fun _ _ _ h1 h2 => le_trans h1 h2⟩

def generate_recommendations (l1 l2 l3 l4 l5 l6 l7 l8 l9 : List Rec) : List Rec :=
  List.insertionSort recLE (l1 ++ l2 ++ l3 ++ l4 ++ l5 ++ l6 ++ l7 ++ l8 ++ l9)

/-! ## Energy score (report_generator.py, lines 206-250)

_calculate_energy_score reads eui and the benchmark target; the target lookup
self.benchmarks.get("eui", \x7b\x7d).get(region_key, 35.0) is abstracted as the
target_eui argument, matching the quantification of the claim.  The grade is
assigned from the clamped score; the returned overall field truncates the
score with int() only at the serialization boundary. -/

def calculate_energy_score (eui target_eui : ℚ) : ℚ × String :=
  let eui_over_target := eui / (target_eui + 1/10)
  let raw_score := 100 - (eui_over_target - 1/2) * 50
  let score := max 0 (min 100 raw_score)
  let grade :=
    if 90 ≤ score then "A+"
    else if 80 ≤ score then "A"
    else if 70 ≤ score then "B+"
    else if 60 ≤ score then "B"
    else if 50 ≤ score then "C+"
    else if 40 ≤ score then "C"
    else if 30 ≤ score then "D"
    else "F"
  (score, grade)

/-- Spec-side clamp, from the words of the claim: clamp(x, lo, hi). -/
def clampSpec (x lo hi : ℚ) : ℚ := max lo (min hi x)

/-- Spec-side score formula, from the words of the claim:
clamp(100 - (EUI/(targetEUI + 0.1) - 0.5) * 50, 0, 100). -/
def energyScoreSpec (eui target_eui : ℚ) : ℚ :=
  clampSpec (100 - (eui / (target_eui + 1/10) - 1/2) * 50) 0 100

/-- Spec-side grade table, from the fixed breakpoints of the claim. -/
def gradeSpec (score : ℚ) : String :=
  if 90 ≤ score then "A+"
  else if 80 ≤ score then "A"
  else if 70 ≤ score then "B+"
  else if 60 ≤ score then "B"
  else if 50 ≤ score then "C+"
  else if 40 ≤ score then "C"
  else if 30 ≤ score then "D"
  else "F"

/-! ## Stability of the payback sort

Stability is expressed by filter invariance: for every key value p, the
sublist of recommendations whose key equals p is unchanged by the sort. -/

lemma filter_orderedInsert_of_key_eq (p : WithTop ℚ) (x : Rec)
    (hx : payback_key x = p) :
    ∀ l : List Rec,
      (List.orderedInsert recLE x l).filter (fun r => decide (payback_key r = p))
        = x :: l.filter (fun r => decide (payback_key r = p))
  | [] => by simp [List.orderedInsert, hx]
  | y :: ys => by
    by_cases h : recLE x y
    · simp [List.orderedInsert, if_pos h, List.filter_cons, hx]
    · have hy : ¬ payback_key y = p := by
        intro hyp
        exact h (le_of_eq (hx.trans hyp.symm))
      simp only [List.orderedInsert, if_neg h, List.filter_cons, hy,
        decide_eq_true_eq, if_neg hy]
      simp only [filter_orderedInsert_of_key_eq p x hx ys]
      simp [hy]

lemma filter_orderedInsert_of_key_ne (p : WithTop ℚ) (x : Rec)
    (hx : ¬ payback_key x = p) :
    ∀ l : List Rec,
      (List.orderedInsert recLE x l).filter (fun r => decide (payback_key r = p))
        = l.filter (fun r => decide (payback_key r = p))
  | [] => by simp [List.orderedInsert, hx]
  | y :: ys => by
    by_cases h : recLE x y
    · simp [List.orderedInsert, if_pos h, List.filter_cons, hx]
    · simp only [List.orderedInsert, if_neg h, List.filter_cons]
      simp only [filter_orderedInsert_of_key_ne p x hx ys]

lemma filter_insertionSort (p : WithTop ℚ) :
    ∀ l : List Rec,
      (List.insertionSort recLE l).filter (fun r => decide (payback_key r = p))
        = l.filter (fun r => decide (payback_key r = p))
  | [] => rfl
  | a :: l => by
    by_cases h : payback_key a = p
    · rw [List.insertionSort, filter_orderedInsert_of_key_eq p a h,
        filter_insertionSort p l, List.filter_cons]
      simp [h]
    · rw [List.insertionSort, filter_orderedInsert_of_key_ne p a h,
        filter_insertionSort p l, List.filter_cons]
      simp [h]

/-- C1: generate_recommendations returns a permutation of the concatenation of
the nine analyzer outputs (category order 1 through 9) that is sorted
non-decreasing by payback_years, recommendations with infinite payback come
after every other recommendation, and the sort is stable: for each payback
value the recommendations carrying it keep their emission order. -/
theorem generate_recommendations_sorted_stable
    (l1 l2 l3 l4 l5 l6 l7 l8 l9 : List Rec) :
    (generate_recommendations l1 l2 l3 l4 l5 l6 l7 l8 l9).Sorted recLE
    ∧ (generate_recommendations l1 l2 l3 l4 l5 l6 l7 l8 l9).Perm
        (l1 ++ l2 ++ l3 ++ l4 ++ l5 ++ l6 ++ l7 ++ l8 ++ l9)
    ∧ (∀ p : WithTop ℚ,
        (generate_recommendations l1 l2 l3 l4 l5 l6 l7 l8 l9).filter
            (fun r => decide (payback_key r = p))
          = (l1 ++ l2 ++ l3 ++ l4 ++ l5 ++ l6 ++ l7 ++ l8 ++ l9).filter
            (fun r => decide (payback_key r = p)))
    ∧ (generate_recommendations l1 l2 l3 l4 l5 l6 l7 l8 l9).Pairwise
        (fun a b => payback_key a = ⊤ → payback_key b = ⊤) := by
  refine ⟨List.sorted_insertionSort recLE _, List.perm_insertionSort recLE _,
    fun p => filter_insertionSort p _, ?_⟩
  refine (List.sorted_insertionSort recLE _).imp ?_
  intro a b hab hta
  have h2 : payback_key a ≤ payback_key b := hab
  rw [hta] at h2
  exact top_le_iff.mp h2

/-- Witness for C1 at a concrete input: two singleton category lists, one
with infinite payback ahead of one with payback 3, end up sorted. -/
theorem generate_recommendations_sorted_stable_witness :
    (generate_recommendations [⟨"a", "a", ⊤, 0⟩] [⟨"b", "b", ((3 : ℚ) : WithTop ℚ), 0⟩]
        [] [] [] [] [] [] []).Sorted recLE :=
  (generate_recommendations_sorted_stable [⟨"a", "a", ⊤, 0⟩]
    [⟨"b", "b", ((3 : ℚ) : WithTop ℚ), 0⟩] [] [] [] [] [] [] []).1

/-- C3: whenever the proposed new value does not exceed the old one (in
particular when they are equal), calculate_insulation_savings,
calculate_hvac_upgrade_savings, and calculate_water_heater_savings return
exactly the zero-savings structure, whose annual_kbtu, annual_kwh,
annual_therms, and annual_dollars fields are all 0, as an ordinary return
value rather than an error. -/
theorem no_improvement_zero_savings (c : SavingsCalculator)
    (old_value new_value sqft load wload : ℚ) (surface fuel : String)
    (h : new_value ≤ old_value) :
    c.calculate_insulation_savings old_value new_value sqft surface fuel = zero_savings
    ∧ c.calculate_hvac_upgrade_savings old_value new_value load fuel = zero_savings
    ∧ c.calculate_water_heater_savings old_value new_value wload fuel = zero_savings
    ∧ zero_savings.annual_kbtu = 0 ∧ zero_savings.annual_kwh = 0
    ∧ zero_savings.annual_therms = 0 ∧ zero_savings.annual_dollars = 0 := by
  refine ⟨?_, ?_, ?_, rfl, rfl, rfl, rfl⟩
  · rw [SavingsCalculator.calculate_insulation_savings, if_pos h]
  · rw [SavingsCalculator.calculate_hvac_upgrade_savings, if_pos (Or.inl h)]
  · rw [SavingsCalculator.calculate_water_heater_savings, if_pos (Or.inl h)]

/-- Witness for C3 at the diagonal input R = R (efficiency = efficiency). -/
theorem no_improvement_zero_savings_witness :
    default_calculator.calculate_insulation_savings 19 19 1000 "attic" "gas"
        = zero_savings
    ∧ default_calculator.calculate_hvac_upgrade_savings 19 19 40000 "gas"
        = zero_savings
    ∧ default_calculator.calculate_water_heater_savings 19 19 15000 "gas"
        = zero_savings :=
  let h := no_improvement_zero_savings default_calculator 19 19 1000 40000 15000
    "attic" "gas" (le_refl 19)
  ⟨h.1, h.2.1, h.2.2.1⟩

/-- C4: calculate_payback_roi returns the sentinel payback_years = ⊤ (the
model of float infinity) and roi_percent = 0 whenever the annual savings are
non-positive; with positive annual savings the payback is net cost divided by
the (strictly positive) savings, so no division by zero or by a negative
annual savings is ever performed; in particular annual savings exactly 0
yields the sentinel for every cost. -/
theorem payback_roi_nonpositive_sentinel (upfront_cost rebates s : ℚ) :
    (s ≤ 0 → calculate_payback_roi upfront_cost s rebates = ⟨⊤, 0⟩)
    ∧ (0 < s → (calculate_payback_roi upfront_cost s rebates).payback_years
        = (((upfront_cost - rebates) / s : ℚ) : WithTop ℚ))
    ∧ calculate_payback_roi upfront_cost 0 rebates = ⟨⊤, 0⟩ := by
  refine ⟨fun h => ?_, fun h => ?_, ?_⟩
  · rw [calculate_payback_roi, if_pos h]
  · rw [calculate_payback_roi, if_neg (not_le.mpr h)]
  · rw [calculate_payback_roi, if_pos (le_refl (0 : ℚ))]

/-- Witness for C4 at cost 2500 and annual savings 0. -/
theorem payback_roi_nonpositive_sentinel_witness :
    calculate_payback_roi 2500 0 0 = ⟨⊤, 0⟩ :=
  (payback_roi_nonpositive_sentinel 2500 0 0).1 (le_refl 0)

/-- C9: when rebates exceed the upfront cost and annual savings are positive,
calculate_payback_roi returns the strictly negative quotient
(cost - rebates) / savings (not clamped to zero and not the infinity
sentinel) together with roi_percent = 0, because the ROI branch requires a
positive net cost. -/
theorem payback_roi_negative_net_cost (upfront_cost s rebates : ℚ)
    (hc : upfront_cost < rebates) (hs : 0 < s) :
    calculate_payback_roi upfront_cost s rebates
        = ⟨(((upfront_cost - rebates) / s : ℚ) : WithTop ℚ), 0⟩
    ∧ (upfront_cost - rebates) / s < 0 := by
  have hnet : upfront_cost - rebates < 0 := sub_neg.mpr hc
  constructor
  · rw [calculate_payback_roi, if_neg (not_le.mpr hs)]
    simp only [Financial.mk.injEq, WithTop.coe_inj]
    exact ⟨trivial, if_neg (not_lt.mpr hnet.le)⟩
  · exact div_neg_of_neg_of_pos hnet hs

/-- Witness for C9: cost 100, savings 10, rebates 200 gives payback -10. -/
theorem payback_roi_negative_net_cost_witness :
    calculate_payback_roi 100 10 200
        = ⟨((((100 : ℚ) - 200) / 10 : ℚ) : WithTop ℚ), 0⟩
    ∧ ((100 : ℚ) - 200) / 10 < 0 :=
  payback_roi_negative_net_cost 100 10 200 (by norm_num) (by norm_num)

/-- C10: for every non-negative current R-value and arbitrary new R-value,
calculate_insulation_savings never divides by zero (so the Python function
returns normally): when the body reaches the divisions the denominators are
current + 0.1 and new + 0.1 with new > current ≥ 0, both strictly positive.
The precondition is necessary: at current R-value -0.1 (with any larger new
R-value, here 0) the first denominator vanishes, so Python would raise
ZeroDivisionError. -/
theorem insulation_savings_no_div_by_zero (current_r_value new_r_value : ℚ) :
    (0 ≤ current_r_value →
      ¬ insulation_savings_div_by_zero current_r_value new_r_value)
    ∧ insulation_savings_div_by_zero (-(1/10)) 0 := by
  constructor
  · rintro h ⟨hlt, hz | hz⟩
    · have : (0 : ℚ) < current_r_value + 1/10 := by linarith
      exact absurd hz (ne_of_gt this)
    · have : (0 : ℚ) < new_r_value + 1/10 := by linarith
      exact absurd hz (ne_of_gt this)
  · exact ⟨by norm_num, Or.inl (by norm_num)⟩

/-- Witness for C10 at current R 0, new R 1. -/
theorem insulation_savings_no_div_by_zero_witness :
    ¬ insulation_savings_div_by_zero 0 1 :=
  (insulation_savings_no_div_by_zero 0 1).1 (le_refl 0)

/-- C8: UtilityRates built with the division string "New England" and no
custom overrides resolves to region "Northeast", electricity rate 0.22
dollars per kWh, and gas rate 1.80 dollars per therm. -/
theorem new_england_rates :
    (UtilityRates.mk (some "New England") no_custom_rates).region = "Northeast"
    ∧ (UtilityRates.mk (some "New England") no_custom_rates).get_electricity_rate
        = 22/100
    ∧ (UtilityRates.mk (some "New England") no_custom_rates).get_gas_rate
        = 18/10 := by
  exact ⟨rfl, rfl, rfl⟩

/-- C7: for every EUI and target EUI, the energy score equals
clamp(100 - (EUI / (targetEUI + 0.1) - 0.5) * 50, 0, 100), and the letter
grade is exactly the fixed-breakpoint table applied to that score: grade A+
holds exactly on score ≥ 90, A on 80 ≤ score < 90, B+ on 70 ≤ score < 80,
B on 60 ≤ score < 70, C+ on 50 ≤ score < 60, C on 40 ≤ score < 50, D on
30 ≤ score < 40, and F exactly when score < 30. -/
theorem energy_score_clamp_and_grade (eui target_eui : ℚ) :
    (calculate_energy_score eui target_eui).1 = energyScoreSpec eui target_eui
    ∧ (calculate_energy_score eui target_eui).2
        = gradeSpec (calculate_energy_score eui target_eui).1
    ∧ (((calculate_energy_score eui target_eui).2 = "A+")
        ↔ 90 ≤ (calculate_energy_score eui target_eui).1)
    ∧ (((calculate_energy_score eui target_eui).2 = "A")
        ↔ 80 ≤ (calculate_energy_score eui target_eui).1
          ∧ (calculate_energy_score eui target_eui).1 < 90)
    ∧ (((calculate_energy_score eui target_eui).2 = "B+")
        ↔ 70 ≤ (calculate_energy_score eui target_eui).1
          ∧ (calculate_energy_score eui target_eui).1 < 80)
    ∧ (((calculate_energy_score eui target_eui).2 = "B")
        ↔ 60 ≤ (calculate_energy_score eui target_eui).1
          ∧ (calculate_energy_score eui target_eui).1 < 70)
    ∧ (((calculate_energy_score eui target_eui).2 = "C+")
        ↔ 50 ≤ (calculate_energy_score eui target_eui).1
          ∧ (calculate_energy_score eui target_eui).1 < 60)
    ∧ (((calculate_energy_score eui target_eui).2 = "C")
        ↔ 40 ≤ (calculate_energy_score eui target_eui).1
          ∧ (calculate_energy_score eui target_eui).1 < 50)
    ∧ (((calculate_energy_score eui target_eui).2 = "D")
        ↔ 30 ≤ (calculate_energy_score eui target_eui).1
          ∧ (calculate_energy_score eui target_eui).1 < 40)
    ∧ (((calculate_energy_score eui target_eui).2 = "F")
        ↔ (calculate_energy_score eui target_eui).1 < 30) := by
  have hspec : (calculate_energy_score eui target_eui).1 = energyScoreSpec eui target_eui := rfl
  have hgrade : (calculate_energy_score eui target_eui).2
      = gradeSpec (calculate_energy_score eui target_eui).1 := rfl
  refine ⟨hspec, hgrade, ?_⟩
  rw [hgrade]
  generalize (calculate_energy_score eui target_eui).1 = s
  unfold gradeSpec
  split_ifs with h90 h80 h70 h60 h50 h40 h30 <;>
    refine ⟨?_, ?_, ?_, ?_, ?_, ?_, ?_, ?_⟩ <;> simp_all <;> intros <;> linarith

/-- Witness for C7 at EUI 35 and target EUI 35: score is
clamp(100 - (35/35.1 - 0.5) * 50, 0, 100) and the grade table applies. -/
theorem energy_score_clamp_and_grade_witness :
    (calculate_energy_score 35 35).1 = energyScoreSpec 35 35
    ∧ (calculate_energy_score 35 35).2 = gradeSpec (calculate_energy_score 35 35).1 :=
  ⟨(energy_score_clamp_and_grade 35 35).1, (energy_score_clamp_and_grade 35 35).2.1⟩

/-- C6 counterexample: at currentR = 1, newR = 2, sqft = 1 with the default
calculator (HDD = 5500), the returned annual_kbtu is
1 * 5500 / (1 + 0.1) - 1 * 5500 / (2 + 0.1) = 50000/21, which differs from
the value 1 * 5500 / 1 - 1 * 5500 / 2 = 2750 demanded by the claim formula
Q(R) = sqft * HDD / R: the code divides by R + 0.1, not by R. -/
theorem insulation_savings_formula_counterexample :
    (default_calculator.calculate_insulation_savings 1 2 1 "attic" "gas").annual_kbtu
      ≠ 1 * (5500 : ℚ) / 1 - 1 * 5500 / 2 := by
  have h : (default_calculator.calculate_insulation_savings 1 2 1 "attic" "gas").annual_kbtu
      = max 0 (1 * (5500 : ℚ) / (1 + 1/10) - 1 * 5500 / (2 + 1/10)) := by
    rw [SavingsCalculator.calculate_insulation_savings, if_neg (by norm_num : ¬ (2 : ℚ) ≤ 1)]
    rfl
  rw [h]
  have : max 0 (1 * (5500 : ℚ) / (1 + 1/10) - 1 * 5500 / (2 + 1/10)) = 50000/21 := by
    rw [max_eq_right (by norm_num)]
    norm_num
  rw [this]
  norm_num

/-- C6 amended: for non-negative sqft and HDD, every non-negative currentR,
and currentR < newR, calculate_insulation_savings returns
annual_kbtu = sqft * HDD / (currentR + 0.1) - sqft * HDD / (newR + 0.1):
the heat-loss model of the code is Q(R) = sqft * HDD / (R + 0.1), with the
0.1 offset on both denominators (savings_calculator.py, lines 83-86). -/
theorem insulation_savings_heat_loss_formula (c : SavingsCalculator)
    (current_r_value new_r_value sqft : ℚ) (surface fuel : String)
    (hsq : 0 ≤ sqft) (hh : 0 ≤ c.hdd) (hc : 0 ≤ current_r_value)
    (hlt : current_r_value < new_r_value) :
    (c.calculate_insulation_savings current_r_value new_r_value sqft
        surface fuel).annual_kbtu
      = sqft * c.hdd / (current_r_value + 1/10)
        - sqft * c.hdd / (new_r_value + 1/10) := by
  rw [SavingsCalculator.calculate_insulation_savings, if_neg (not_le.mpr hlt)]
  show max 0 (sqft * c.hdd / (current_r_value + 1/10)
      - sqft * c.hdd / (new_r_value + 1/10)) = _
  have hd1 : (0 : ℚ) < current_r_value + 1/10 := by linarith
  have hle : sqft * c.hdd / (new_r_value + 1/10)
      ≤ sqft * c.hdd / (current_r_value + 1/10) :=
    div_le_div_of_nonneg_left (mul_nonneg hsq hh) hd1 (by linarith)
  exact max_eq_right (sub_nonneg.mpr hle)

/-- Witness for the amended C6 at the counterexample input: the returned
annual_kbtu matches the offset formula there. -/
theorem insulation_savings_heat_loss_formula_witness :
    (default_calculator.calculate_insulation_savings 1 2 1 "attic" "gas").annual_kbtu
      = 1 * (5500 : ℚ) / (1 + 1/10) - 1 * 5500 / (2 + 1/10) :=
  insulation_savings_heat_loss_formula default_calculator 1 2 1 "attic" "gas"
    (by norm_num) (by norm_num [default_calculator]) (by norm_num) (by norm_num)

/-! ## Monotonicity infrastructure for C5 -/

/-- All four rate getters non-negative (every table entry is non-negative;
custom overrides are unconstrained, so this is a hypothesis). -/
def nonneg_rates (u : UtilityRates) : Prop :=
  0 ≤ u.get_electricity_rate ∧ 0 ≤ u.get_gas_rate
    ∧ 0 ≤ u.get_propane_rate ∧ 0 ≤ u.get_fuel_oil_rate

/-- Componentwise comparison of the four annual savings figures. -/
def savings_le (s1 s2 : Savings) : Prop :=
  s1.annual_kbtu ≤ s2.annual_kbtu ∧ s1.annual_kwh ≤ s2.annual_kwh
    ∧ s1.annual_therms ≤ s2.annual_therms ∧ s1.annual_dollars ≤ s2.annual_dollars

lemma kbtu_to_dollars_mono (u : UtilityRates) (hr : nonneg_rates u)
    {a b : ℚ} (hab : a ≤ b) (fuel : String) :
    u.kbtu_to_dollars a fuel ≤ u.kbtu_to_dollars b fuel := by
  obtain ⟨he, hg, hp, hf⟩ := hr
  unfold UtilityRates.kbtu_to_dollars
  split_ifs
  · exact mul_le_mul_of_nonneg_right
      (mul_le_mul_of_nonneg_right hab (by norm_num [KBTU_TO_KWH])) he
  · exact mul_le_mul_of_nonneg_right
      (mul_le_mul_of_nonneg_right hab (by norm_num [KBTU_TO_THERM])) hg
  · exact mul_le_mul_of_nonneg_right
      ((div_le_div_right (by norm_num)).mpr hab) hp
  · exact mul_le_mul_of_nonneg_right
      ((div_le_div_right (by norm_num)).mpr hab) hf
  · refine add_le_add ?_ ?_
    · exact mul_le_mul_of_nonneg_right (mul_le_mul_of_nonneg_right
        (mul_le_mul_of_nonneg_right hab (by norm_num)) (by norm_num [KBTU_TO_THERM])) hg
    · exact mul_le_mul_of_nonneg_right (mul_le_mul_of_nonneg_right
        (mul_le_mul_of_nonneg_right hab (by norm_num)) (by norm_num [KBTU_TO_KWH])) he

/-- The efficiency normalization of the HVAC and water-heater calculators:
percentages above 1 are divided by 100. -/
def normalize_eff (e : ℚ) : ℚ := if 1 < e then e / 100 else e

lemma normalize_eff_pos {e : ℚ} (he : 0 < e) : 0 < normalize_eff e := by
  unfold normalize_eff
  split_ifs
  · positivity
  · exact he

lemma normalize_eff_le {a b : ℚ} (hab : a ≤ b) (hscale : b ≤ 1 ∨ 1 < a) :
    normalize_eff a ≤ normalize_eff b := by
  unfold normalize_eff
  rcases hscale with hb | ha
  · rw [if_neg (not_lt.mpr (hab.trans hb)), if_neg (not_lt.mpr hb)]
    exact hab
  · rw [if_pos ha, if_pos (ha.trans_le hab)]
    exact (div_le_div_right (by norm_num)).mpr hab

/-- Unfolded raw (pre-clamp) kBTU savings of the HVAC and water-heater
calculators past their guards. -/
def eff_raw_savings (old_e new_e load : ℚ) : ℚ :=
  load / normalize_eff old_e - load / normalize_eff new_e

lemma hvac_eval (c : SavingsCalculator) (old_e new_e load : ℚ) (fuel : String)
    (h : ¬ (new_e ≤ old_e ∨ old_e ≤ 0)) :
    c.calculate_hvac_upgrade_savings old_e new_e load fuel =
      ⟨max 0 (eff_raw_savings old_e new_e load),
        max 0 (eff_raw_savings old_e new_e load * KBTU_TO_KWH),
        max 0 (eff_raw_savings old_e new_e load * KBTU_TO_THERM),
        max 0 (c.rates.kbtu_to_dollars (eff_raw_savings old_e new_e load) fuel),
        (equipment_lifespans (if fuel = "gas" then "furnace" else "heat_pump")).getD 20⟩ := by
  rw [SavingsCalculator.calculate_hvac_upgrade_savings, if_neg h]
  rfl

/-- Unfolded raw kBTU savings of the insulation calculator past its guard. -/
def insul_raw_savings (c : SavingsCalculator) (cur_r new_r sqft : ℚ) : ℚ :=
  sqft * c.hdd / (cur_r + 1/10) - sqft * c.hdd / (new_r + 1/10)

lemma insulation_eval (c : SavingsCalculator) (cur_r new_r sqft : ℚ)
    (surface fuel : String) (h : ¬ new_r ≤ cur_r) :
    c.calculate_insulation_savings cur_r new_r sqft surface fuel =
      ⟨max 0 (insul_raw_savings c cur_r new_r sqft),
        max 0 (insul_raw_savings c cur_r new_r sqft * KBTU_TO_KWH),
        max 0 (insul_raw_savings c cur_r new_r sqft * KBTU_TO_THERM),
        max 0 (c.rates.kbtu_to_dollars (insul_raw_savings c cur_r new_r sqft) fuel),
        (equipment_lifespans "insulation").getD 50⟩ := by
  rw [SavingsCalculator.calculate_insulation_savings, if_neg h]
  rfl

/-- In the clamped form, componentwise order follows from order of the raw
savings, given non-negative rates. -/
lemma savings_le_of_raw_le (c : SavingsCalculator) (hr : nonneg_rates c.rates)
    {r1 r2 : ℚ} (h : r1 ≤ r2) (fuel : String) (n1 n2 : ℕ) :
    savings_le
      ⟨max 0 r1, max 0 (r1 * KBTU_TO_KWH), max 0 (r1 * KBTU_TO_THERM),
        max 0 (c.rates.kbtu_to_dollars r1 fuel), n1⟩
      ⟨max 0 r2, max 0 (r2 * KBTU_TO_KWH), max 0 (r2 * KBTU_TO_THERM),
        max 0 (c.rates.kbtu_to_dollars r2 fuel), n2⟩ := by
  refine ⟨max_le_max le_rfl h, ?_, ?_, ?_⟩
  · exact max_le_max le_rfl (mul_le_mul_of_nonneg_right h (by norm_num [KBTU_TO_KWH]))
  · exact max_le_max le_rfl (mul_le_mul_of_nonneg_right h (by norm_num [KBTU_TO_THERM]))
  · exact max_le_max le_rfl (kbtu_to_dollars_mono c.rates hr h fuel)

/-- The zero-savings structure is below any clamped-form structure. -/
lemma zero_savings_le_clamped (a b d e : ℚ) (n : ℕ) :
    savings_le zero_savings ⟨max 0 a, max 0 b, max 0 d, max 0 e, n⟩ :=
  ⟨le_max_left 0 a, le_max_left 0 b, le_max_left 0 d, le_max_left 0 e⟩

lemma savings_le_refl (s : Savings) : savings_le s s :=
  ⟨le_rfl, le_rfl, le_rfl, le_rfl⟩

/-- Unfolded raw annual-kWh savings of the cooling calculator past its
guard: SEER divides the load converted to BTU. -/
def cooling_raw_savings (old_seer new_seer load : ℚ) : ℚ :=
  load * 1000 / old_seer - load * 1000 / new_seer

lemma cooling_eval (c : SavingsCalculator) (old_seer new_seer load : ℚ)
    (h : ¬ (new_seer ≤ old_seer ∨ old_seer ≤ 0)) :
    c.calculate_cooling_upgrade_savings old_seer new_seer load =
      ⟨max 0 (cooling_raw_savings old_seer new_seer load / KBTU_TO_KWH),
        max 0 (cooling_raw_savings old_seer new_seer load), 0,
        max 0 (cooling_raw_savings old_seer new_seer load
          * c.rates.get_electricity_rate),
        (equipment_lifespans "ac").getD 15⟩ := by
  rw [SavingsCalculator.calculate_cooling_upgrade_savings, if_neg h]
  rfl

lemma water_eval (c : SavingsCalculator) (old_e new_e load : ℚ) (fuel : String)
    (h : ¬ (new_e ≤ old_e ∨ old_e ≤ 0)) :
    c.calculate_water_heater_savings old_e new_e load fuel =
      ⟨max 0 (eff_raw_savings old_e new_e load),
        max 0 (eff_raw_savings old_e new_e load * KBTU_TO_KWH),
        max 0 (eff_raw_savings old_e new_e load * KBTU_TO_THERM),
        max 0 (c.rates.kbtu_to_dollars (eff_raw_savings old_e new_e load) fuel),
        (equipment_lifespans "water_heater").getD 12⟩ := by
  rw [SavingsCalculator.calculate_water_heater_savings, if_neg h]
  rfl

lemma cooling_savings_le_of_raw_le (c : SavingsCalculator)
    (he : 0 ≤ c.rates.get_electricity_rate) {r1 r2 : ℚ} (h : r1 ≤ r2)
    (n1 n2 : ℕ) :
    savings_le
      ⟨max 0 (r1 / KBTU_TO_KWH), max 0 r1, 0,
        max 0 (r1 * c.rates.get_electricity_rate), n1⟩
      ⟨max 0 (r2 / KBTU_TO_KWH), max 0 r2, 0,
        max 0 (r2 * c.rates.get_electricity_rate), n2⟩ := by
  refine ⟨?_, max_le_max le_rfl h, le_rfl, ?_⟩
  · exact max_le_max le_rfl
      ((div_le_div_right (by norm_num [KBTU_TO_KWH])).mpr h)
  · exact max_le_max le_rfl (mul_le_mul_of_nonneg_right h he)

/-- The zero-savings structure is below any cooling-shaped clamped
structure. -/
lemma zero_savings_le_cooling_clamped (a b d : ℚ) (n : ℕ) :
    savings_le zero_savings ⟨max 0 a, max 0 b, 0, max 0 d, n⟩ :=
  ⟨le_max_left 0 a, le_max_left 0 b, le_rfl, le_max_left 0 d⟩

/-- C5 counterexample: with the default calculator, old efficiency 0.9
(a fraction) and load 1, raising the new efficiency from 1 to 2 makes the
returned annual_kbtu drop from 1/9 to 0: the value 2 is reinterpreted as the
percentage 0.02 by the internal normalization, so the computed savings turn
negative and are clamped to 0. Monotonicity in the efficiency gap therefore
fails as stated. -/
theorem hvac_savings_monotonicity_counterexample :
    (default_calculator.calculate_hvac_upgrade_savings (9/10) 2 1 "gas").annual_kbtu
      < (default_calculator.calculate_hvac_upgrade_savings (9/10) 1 1 "gas").annual_kbtu := by
  have h2 : (default_calculator.calculate_hvac_upgrade_savings (9/10) 2 1 "gas").annual_kbtu
      = max 0 (eff_raw_savings (9/10) 2 1) := by
    rw [hvac_eval default_calculator (9/10) 2 1 "gas" (by push_neg; norm_num)]
  have h1 : (default_calculator.calculate_hvac_upgrade_savings (9/10) 1 1 "gas").annual_kbtu
      = max 0 (eff_raw_savings (9/10) 1 1) := by
    rw [hvac_eval default_calculator (9/10) 1 1 "gas" (by push_neg; norm_num)]
  rw [h1, h2]
  have e2 : eff_raw_savings (9/10) 2 1 = 10/9 - 50 := by
    unfold eff_raw_savings normalize_eff
    rw [if_neg (by norm_num : ¬ (1 : ℚ) < 9/10), if_pos (by norm_num : (1 : ℚ) < 2)]
    norm_num
  have e1 : eff_raw_savings (9/10) 1 1 = 1/9 := by
    unfold eff_raw_savings normalize_eff
    rw [if_neg (by norm_num : ¬ (1 : ℚ) < 9/10), if_neg (lt_irrefl (1 : ℚ))]
    norm_num
  rw [e1, e2, max_eq_left (by norm_num), max_eq_right (by norm_num)]
  norm_num

/-- C5 amended: for every measure category, the annual savings figures are
monotone in the efficiency gap, on a fixed efficiency scale where the
calculator normalizes percentages. With non-negative utility rates and
non-negative load: for the HVAC and water-heater calculators (which
normalize values above 1 by dividing by 100), raising the new
efficiency/EF never decreases any of the four annual savings figures
provided both compared values lie on the same side of the
fraction/percentage boundary (both ≤ 1 or both > 1), and lowering the old
efficiency/EF (kept strictly positive, same-scale) never decreases them;
for the cooling calculator (SEER, no normalization), raising the new SEER
or lowering the strictly positive old SEER never decreases any figure,
unconditionally; for the insulation calculator (R-values, no
normalization), with non-negative sqft, HDD, and current R-value, raising
the new R-value or lowering the (non-negative) current R-value never
decreases any figure. Across the fraction/percentage scale boundary
monotonicity fails (see the counterexample). -/
theorem savings_monotone_in_efficiency_gap :
    (∀ (c : SavingsCalculator) (old_e load n1 n2 : ℚ) (fuel : String),
      nonneg_rates c.rates → 0 ≤ load → n1 ≤ n2 → (n2 ≤ 1 ∨ 1 < n1) →
      savings_le (c.calculate_hvac_upgrade_savings old_e n1 load fuel)
        (c.calculate_hvac_upgrade_savings old_e n2 load fuel))
    ∧ (∀ (c : SavingsCalculator) (o1 o2 new_e load : ℚ) (fuel : String),
      nonneg_rates c.rates → 0 ≤ load → 0 < o2 → o2 ≤ o1 → (o1 ≤ 1 ∨ 1 < o2) →
      savings_le (c.calculate_hvac_upgrade_savings o1 new_e load fuel)
        (c.calculate_hvac_upgrade_savings o2 new_e load fuel))
    ∧ (∀ (c : SavingsCalculator) (old_seer load n1 n2 : ℚ),
      nonneg_rates c.rates → 0 ≤ load → n1 ≤ n2 →
      savings_le (c.calculate_cooling_upgrade_savings old_seer n1 load)
        (c.calculate_cooling_upgrade_savings old_seer n2 load))
    ∧ (∀ (c : SavingsCalculator) (o1 o2 new_seer load : ℚ),
      nonneg_rates c.rates → 0 ≤ load → 0 < o2 → o2 ≤ o1 →
      savings_le (c.calculate_cooling_upgrade_savings o1 new_seer load)
        (c.calculate_cooling_upgrade_savings o2 new_seer load))
    ∧ (∀ (c : SavingsCalculator) (old_e load n1 n2 : ℚ) (fuel : String),
      nonneg_rates c.rates → 0 ≤ load → n1 ≤ n2 → (n2 ≤ 1 ∨ 1 < n1) →
      savings_le (c.calculate_water_heater_savings old_e n1 load fuel)
        (c.calculate_water_heater_savings old_e n2 load fuel))
    ∧ (∀ (c : SavingsCalculator) (o1 o2 new_e load : ℚ) (fuel : String),
      nonneg_rates c.rates → 0 ≤ load → 0 < o2 → o2 ≤ o1 → (o1 ≤ 1 ∨ 1 < o2) →
      savings_le (c.calculate_water_heater_savings o1 new_e load fuel)
        (c.calculate_water_heater_savings o2 new_e load fuel))
    ∧ (∀ (c : SavingsCalculator) (cur n1 n2 sqft : ℚ) (surface fuel : String),
      nonneg_rates c.rates → 0 ≤ sqft → 0 ≤ c.hdd → 0 ≤ cur → n1 ≤ n2 →
      savings_le (c.calculate_insulation_savings cur n1 sqft surface fuel)
        (c.calculate_insulation_savings cur n2 sqft surface fuel))
    ∧ (∀ (c : SavingsCalculator) (c1 c2 new_r sqft : ℚ) (surface fuel : String),
      nonneg_rates c.rates → 0 ≤ sqft → 0 ≤ c.hdd → 0 ≤ c2 → c2 ≤ c1 →
      savings_le (c.calculate_insulation_savings c1 new_r sqft surface fuel)
        (c.calculate_insulation_savings c2 new_r sqft surface fuel)) := by
  refine ⟨?_, ?_, ?_, ?_, ?_, ?_, ?_, ?_⟩
  · -- HVAC, new efficiency raised
    intro c old_e load n1 n2 fuel hr hl h12 hscale
    by_cases g1 : n1 ≤ old_e ∨ old_e ≤ 0
    · rw [SavingsCalculator.calculate_hvac_upgrade_savings, if_pos g1]
      by_cases g2 : n2 ≤ old_e ∨ old_e ≤ 0
      · rw [SavingsCalculator.calculate_hvac_upgrade_savings, if_pos g2]
        exact savings_le_refl zero_savings
      · rw [hvac_eval c old_e n2 load fuel g2]
        exact zero_savings_le_clamped _ _ _ _ _
    · push_neg at g1
      obtain ⟨hn1, hold⟩ := g1
      have g2 : ¬ (n2 ≤ old_e ∨ old_e ≤ 0) := by
        push_neg
        exact ⟨lt_of_lt_of_le hn1 h12, hold⟩
      rw [hvac_eval c old_e n1 load fuel (by push_neg; exact ⟨hn1, hold⟩),
        hvac_eval c old_e n2 load fuel g2]
      have hraw : eff_raw_savings old_e n1 load ≤ eff_raw_savings old_e n2 load := by
        unfold eff_raw_savings
        refine sub_le_sub_left ?_ _
        exact div_le_div_of_nonneg_left hl
          (normalize_eff_pos (hold.trans hn1)) (normalize_eff_le h12 hscale)
      exact savings_le_of_raw_le c hr hraw fuel _ _
  · -- HVAC, old efficiency lowered
    intro c o1 o2 new_e load fuel hr hl ho2 h21 hscale
    by_cases g1 : new_e ≤ o1 ∨ o1 ≤ 0
    · rw [SavingsCalculator.calculate_hvac_upgrade_savings, if_pos g1]
      by_cases g2 : new_e ≤ o2 ∨ o2 ≤ 0
      · rw [SavingsCalculator.calculate_hvac_upgrade_savings, if_pos g2]
        exact savings_le_refl zero_savings
      · rw [hvac_eval c o2 new_e load fuel g2]
        exact zero_savings_le_clamped _ _ _ _ _
    · push_neg at g1
      obtain ⟨hn1, ho1⟩ := g1
      have g2 : ¬ (new_e ≤ o2 ∨ o2 ≤ 0) := by
        push_neg
        exact ⟨lt_of_le_of_lt h21 hn1, ho2⟩
      rw [hvac_eval c o1 new_e load fuel (by push_neg; exact ⟨hn1, ho1⟩),
        hvac_eval c o2 new_e load fuel g2]
      have hraw : eff_raw_savings o1 new_e load ≤ eff_raw_savings o2 new_e load := by
        unfold eff_raw_savings
        refine sub_le_sub_right ?_ _
        exact div_le_div_of_nonneg_left hl
          (normalize_eff_pos ho2) (normalize_eff_le h21 hscale)
      exact savings_le_of_raw_le c hr hraw fuel _ _
  · -- cooling, new SEER raised (no normalization, no scale condition)
    intro c old_seer load n1 n2 hr hl h12
    by_cases g1 : n1 ≤ old_seer ∨ old_seer ≤ 0
    · rw [SavingsCalculator.calculate_cooling_upgrade_savings, if_pos g1]
      by_cases g2 : n2 ≤ old_seer ∨ old_seer ≤ 0
      · rw [SavingsCalculator.calculate_cooling_upgrade_savings, if_pos g2]
        exact savings_le_refl zero_savings
      · rw [cooling_eval c old_seer n2 load g2]
        exact zero_savings_le_cooling_clamped _ _ _ _
    · push_neg at g1
      obtain ⟨hn1, hold⟩ := g1
      have g2 : ¬ (n2 ≤ old_seer ∨ old_seer ≤ 0) := by
        push_neg
        exact ⟨lt_of_lt_of_le hn1 h12, hold⟩
      rw [cooling_eval c old_seer n1 load (by push_neg; exact ⟨hn1, hold⟩),
        cooling_eval c old_seer n2 load g2]
      have hraw : cooling_raw_savings old_seer n1 load
          ≤ cooling_raw_savings old_seer n2 load := by
        unfold cooling_raw_savings
        refine sub_le_sub_left ?_ _
        exact div_le_div_of_nonneg_left
          (mul_nonneg hl (by norm_num)) (hold.trans hn1) h12
      exact cooling_savings_le_of_raw_le c hr.1 hraw _ _
  · -- cooling, old SEER lowered
    intro c o1 o2 new_seer load hr hl ho2 h21
    by_cases g1 : new_seer ≤ o1 ∨ o1 ≤ 0
    · rw [SavingsCalculator.calculate_cooling_upgrade_savings, if_pos g1]
      by_cases g2 : new_seer ≤ o2 ∨ o2 ≤ 0
      · rw [SavingsCalculator.calculate_cooling_upgrade_savings, if_pos g2]
        exact savings_le_refl zero_savings
      · rw [cooling_eval c o2 new_seer load g2]
        exact zero_savings_le_cooling_clamped _ _ _ _
    · push_neg at g1
      obtain ⟨hn1, ho1⟩ := g1
      have g2 : ¬ (new_seer ≤ o2 ∨ o2 ≤ 0) := by
        push_neg
        exact ⟨lt_of_le_of_lt h21 hn1, ho2⟩
      rw [cooling_eval c o1 new_seer load (by push_neg; exact ⟨hn1, ho1⟩),
        cooling_eval c o2 new_seer load g2]
      have hraw : cooling_raw_savings o1 new_seer load
          ≤ cooling_raw_savings o2 new_seer load := by
        unfold cooling_raw_savings
        refine sub_le_sub_right ?_ _
        exact div_le_div_of_nonneg_left
          (mul_nonneg hl (by norm_num)) ho2 h21
      exact cooling_savings_le_of_raw_le c hr.1 hraw _ _
  · -- water heater, new EF raised (same normalization as HVAC)
    intro c old_e load n1 n2 fuel hr hl h12 hscale
    by_cases g1 : n1 ≤ old_e ∨ old_e ≤ 0
    · rw [SavingsCalculator.calculate_water_heater_savings, if_pos g1]
      by_cases g2 : n2 ≤ old_e ∨ old_e ≤ 0
      · rw [SavingsCalculator.calculate_water_heater_savings, if_pos g2]
        exact savings_le_refl zero_savings
      · rw [water_eval c old_e n2 load fuel g2]
        exact zero_savings_le_clamped _ _ _ _ _
    · push_neg at g1
      obtain ⟨hn1, hold⟩ := g1
      have g2 : ¬ (n2 ≤ old_e ∨ old_e ≤ 0) := by
        push_neg
        exact ⟨lt_of_lt_of_le hn1 h12, hold⟩
      rw [water_eval c old_e n1 load fuel (by push_neg; exact ⟨hn1, hold⟩),
        water_eval c old_e n2 load fuel g2]
      have hraw : eff_raw_savings old_e n1 load ≤ eff_raw_savings old_e n2 load := by
        unfold eff_raw_savings
        refine sub_le_sub_left ?_ _
        exact div_le_div_of_nonneg_left hl
          (normalize_eff_pos (hold.trans hn1)) (normalize_eff_le h12 hscale)
      exact savings_le_of_raw_le c hr hraw fuel _ _
  · -- water heater, old EF lowered
    intro c o1 o2 new_e load fuel hr hl ho2 h21 hscale
    by_cases g1 : new_e ≤ o1 ∨ o1 ≤ 0
    · rw [SavingsCalculator.calculate_water_heater_savings, if_pos g1]
      by_cases g2 : new_e ≤ o2 ∨ o2 ≤ 0
      · rw [SavingsCalculator.calculate_water_heater_savings, if_pos g2]
        exact savings_le_refl zero_savings
      · rw [water_eval c o2 new_e load fuel g2]
        exact zero_savings_le_clamped _ _ _ _ _
    · push_neg at g1
      obtain ⟨hn1, ho1⟩ := g1
      have g2 : ¬ (new_e ≤ o2 ∨ o2 ≤ 0) := by
        push_neg
        exact ⟨lt_of_le_of_lt h21 hn1, ho2⟩
      rw [water_eval c o1 new_e load fuel (by push_neg; exact ⟨hn1, ho1⟩),
        water_eval c o2 new_e load fuel g2]
      have hraw : eff_raw_savings o1 new_e load ≤ eff_raw_savings o2 new_e load := by
        unfold eff_raw_savings
        refine sub_le_sub_right ?_ _
        exact div_le_div_of_nonneg_left hl
          (normalize_eff_pos ho2) (normalize_eff_le h21 hscale)
      exact savings_le_of_raw_le c hr hraw fuel _ _
  · -- insulation, new R raised
    intro c cur n1 n2 sqft surface fuel hr hsq hh hcur h12
    by_cases g1 : n1 ≤ cur
    · rw [SavingsCalculator.calculate_insulation_savings, if_pos g1]
      by_cases g2 : n2 ≤ cur
      · rw [SavingsCalculator.calculate_insulation_savings, if_pos g2]
        exact savings_le_refl zero_savings
      · rw [insulation_eval c cur n2 sqft surface fuel g2]
        exact zero_savings_le_clamped _ _ _ _ _
    · have g2 : ¬ n2 ≤ cur := fun h => g1 (h12.trans h)
      rw [insulation_eval c cur n1 sqft surface fuel g1,
        insulation_eval c cur n2 sqft surface fuel g2]
      have hraw : insul_raw_savings c cur n1 sqft ≤ insul_raw_savings c cur n2 sqft := by
        unfold insul_raw_savings
        refine sub_le_sub_left ?_ _
        push_neg at g1
        exact div_le_div_of_nonneg_left (mul_nonneg hsq hh)
          (by linarith) (by linarith)
      exact savings_le_of_raw_le c hr hraw fuel _ _
  · -- insulation, current R lowered
    intro c c1 c2 new_r sqft surface fuel hr hsq hh hc2 h21
    by_cases g1 : new_r ≤ c1
    · rw [SavingsCalculator.calculate_insulation_savings, if_pos g1]
      by_cases g2 : new_r ≤ c2
      · rw [SavingsCalculator.calculate_insulation_savings, if_pos g2]
        exact savings_le_refl zero_savings
      · rw [insulation_eval c c2 new_r sqft surface fuel g2]
        exact zero_savings_le_clamped _ _ _ _ _
    · have g2 : ¬ new_r ≤ c2 := fun h => g1 (h.trans h21)
      push_neg at g1
      rw [insulation_eval c c1 new_r sqft surface fuel (not_le.mpr g1),
        insulation_eval c c2 new_r sqft surface fuel g2]
      have hraw : insul_raw_savings c c1 new_r sqft ≤ insul_raw_savings c c2 new_r sqft := by
        unfold insul_raw_savings
        refine sub_le_sub_right ?_ _
        exact div_le_div_of_nonneg_left (mul_nonneg hsq hh)
          (by linarith) (by linarith)
      exact savings_le_of_raw_le c hr hraw fuel _ _

/-- Witness for the amended C5: with default rates (all non-negative), old
efficiency 0.9, load 1, raising the new efficiency from 0.95 to 1 (same
scale, both ≤ 1) does not decrease any savings figure. -/
theorem savings_monotone_in_efficiency_gap_witness :
    savings_le
      (default_calculator.calculate_hvac_upgrade_savings (9/10) (95/100) 1 "gas")
      (default_calculator.calculate_hvac_upgrade_savings (9/10) 1 1 "gas") :=
  savings_monotone_in_efficiency_gap.1 default_calculator (9/10) 1 (95/100) 1 "gas"
    ⟨by norm_num [show default_calculator.rates.get_electricity_rate = 14/100 from rfl],
      by norm_num [show default_calculator.rates.get_gas_rate = 12/10 from rfl],
      by norm_num [show default_calculator.rates.get_propane_rate = 24/10 from rfl],
      by norm_num [show default_calculator.rates.get_fuel_oil_rate = 315/100 from rfl]⟩
    (by norm_num) (by norm_num) (Or.inl (by norm_num))

/-! ## C2: materiality gates -/

lemma mem_ite_singleton {P : Prop} [Decidable P] {x r : Rec}
    (h : r ∈ (if P then [x] else [])) : P ∧ r = x := by
  split at h
  · exact ⟨‹P›, List.mem_singleton.mp h⟩
  · exact absurd h (List.not_mem_nil r)

lemma mem_ite_ite_singleton {P Q : Prop} [Decidable P] [Decidable Q] {x r : Rec}
    (h : r ∈ (if P then (if Q then [x] else []) else [])) : P ∧ Q ∧ r = x := by
  split at h
  · split at h
    · exact ⟨‹P›, ‹Q›, List.mem_singleton.mp h⟩
    · exact absurd h (List.not_mem_nil r)
  · exact absurd h (List.not_mem_nil r)

/-- Calculator with a custom gas rate of t/100 dollars per therm, used to
drive the thermostat-rule dollar savings below any candidate threshold. -/
def thermostat_cex_calculator (t : ℚ) : SavingsCalculator :=
  ⟨⟨none, ⟨none, some (t/100), none, none⟩⟩, 5500, 800⟩

lemma thermostat_cex_dollars (t : ℚ) :
    (thermostat_cex_calculator t).rates.kbtu_to_dollars
        ((20001 : ℚ) * (8/100)) "gas"
      = 20001 * (8/100) * KBTU_TO_THERM * (t/100) := rfl

lemma thermostat_cex_mem (t : ℚ) :
    (⟨"rec_heating_002", "Install Smart Thermostat",
      (calculate_payback_roi 250
        ((thermostat_cex_calculator t).rates.kbtu_to_dollars
          ((20001 : ℚ) * (8/100)) "gas") 0).payback_years,
      (thermostat_cex_calculator t).rates.kbtu_to_dollars
        ((20001 : ℚ) * (8/100)) "gas"⟩ : Rec)
      ∈ analyze_heating_system (thermostat_cex_calculator t) 3 "0" 2000 20001 := by
  simp only [analyze_heating_system, equipment_age_years]
  norm_num

/-- C2 counterexample: there is no positive annual-dollar threshold below
which the smart-thermostat rule of the heating category suppresses its
recommendation: for every candidate threshold t > 0, a calculator whose
custom gas rate is t/100 dollars per therm makes the structural trigger
(no programmable thermostat, heating above 20000 kBTU) fire with annual
dollar savings below t, yet rec_heating_002 still appears in the output of
_analyze_heating_system. The rule has no materiality gate at all
(audit_engine.py lines 297-332 append the recommendation unconditionally). -/
theorem materiality_gate_counterexample :
    ¬ ∃ t : ℚ, 0 < t ∧
      ∀ (c : SavingsCalculator) (acequipage : ℤ) (protherm : String)
        (sqft heat_kbtu : ℚ),
        protherm = "0" → 20000 < heat_kbtu →
        c.rates.kbtu_to_dollars (heat_kbtu * (8/100)) "gas" < t →
        ∀ r ∈ analyze_heating_system c acequipage protherm sqft heat_kbtu,
          r.id ≠ "rec_heating_002" := by
  rintro ⟨t, ht, hgate⟩
  have hlt : (thermostat_cex_calculator t).rates.kbtu_to_dollars
      ((20001 : ℚ) * (8/100)) "gas" < t := by
    rw [thermostat_cex_dollars, KBTU_TO_THERM]
    have h1 : (20001 * (8/100) * (1/100) * (1/100) : ℚ) * t < 1 * t :=
      mul_lt_mul_of_pos_right (by norm_num) ht
    calc 20001 * (8/100 : ℚ) * (1/100) * (t/100)
        = (20001 * (8/100) * (1/100) * (1/100)) * t := by ring
      _ < 1 * t := h1
      _ = t := one_mul t
  exact hgate (thermostat_cex_calculator t) 3 "0" 2000 20001 rfl (by norm_num)
    hlt _ (thermostat_cex_mem t) rfl

/-- C2 amended: every rule of every category applies a category-specific
minimum annual-dollar materiality gate, except the smart thermostat rule of
the heating category. Emitted recommendations always exceed their gate:
attic insulation 100, wall insulation 200, windows 150, air sealing 50,
furnace upgrade 200, AC upgrade 150, heat-pump water heater 100, tankless
water heater 150, refrigerator 50, LED lighting 100, solar PV 500, energy
monitoring 50, and behavioral setback 30 dollars per year; the
smart-thermostat recommendation, however, is emitted whenever its structural
trigger holds, with no minimum-dollar threshold. -/
theorem materiality_gates_amended :
    (∀ (c : SavingsCalculator) (adq_insul : ℤ) (attic : String) (year_built : ℤ)
        (windows : ℤ) (typeglass : String) (drafty : ℤ) (heat_kbtu cool_kbtu sqft : ℚ),
      ∀ r ∈ analyze_building_envelope c adq_insul attic year_built windows
          typeglass drafty heat_kbtu cool_kbtu sqft,
        (r.title = "Upgrade Attic Insulation to R-49" → 100 < r.annual_dollars)
        ∧ (r.id = "rec_envelope_002" → 200 < r.annual_dollars)
        ∧ (r.id = "rec_envelope_003" → 150 < r.annual_dollars)
        ∧ (r.id = "rec_envelope_004" → 50 < r.annual_dollars))
    ∧ (∀ (c : SavingsCalculator) (acequipage : ℤ) (protherm : String)
        (sqft heat_kbtu : ℚ),
      ∀ r ∈ analyze_heating_system c acequipage protherm sqft heat_kbtu,
        r.id = "rec_heating_001" → 200 < r.annual_dollars)
    ∧ (∀ (c : SavingsCalculator) (acequipage : ℤ) (cool_kbtu sqft : ℚ),
      ∀ r ∈ analyze_cooling_system c acequipage cool_kbtu sqft,
        r.id = "rec_cooling_001" → 150 < r.annual_dollars)
    ∧ (∀ (c : SavingsCalculator) (fuel_h2o : String) (wh_kbtu : ℚ),
      ∀ r ∈ analyze_water_heating c fuel_h2o wh_kbtu,
        (r.id = "rec_water_001" → 100 < r.annual_dollars)
        ∧ (r.id = "rec_water_002" → 150 < r.annual_dollars))
    ∧ (∀ (c : SavingsCalculator) (num_frig age_frig : ℤ) (baseload_kbtu : ℚ),
      ∀ r ∈ analyze_appliances c num_frig age_frig baseload_kbtu,
        r.id = "rec_appliance_001" → 50 < r.annual_dollars)
    ∧ (∀ (c : SavingsCalculator) (lgtincan : ℤ),
      ∀ r ∈ analyze_lighting c lgtincan,
        r.id = "rec_lighting_001" → 100 < r.annual_dollars)
    ∧ (∀ (c : SavingsCalculator) (total_kbtu : ℚ),
      ∀ r ∈ analyze_renewable_energy c total_kbtu,
        r.id = "rec_renewable_001" → 500 < r.annual_dollars)
    ∧ (∀ (c : SavingsCalculator) (smartmeter : String) (baseload_kbtu : ℚ),
      ∀ r ∈ analyze_smart_home c smartmeter baseload_kbtu,
        r.id = "rec_smart_001" → 50 < r.annual_dollars)
    ∧ (∀ (c : SavingsCalculator) (temphome : ℤ) (heat_kbtu : ℚ),
      ∀ r ∈ analyze_behavioral c temphome heat_kbtu,
        r.id = "rec_behavioral_001" → 30 < r.annual_dollars)
    ∧ (∀ (c : SavingsCalculator) (acequipage : ℤ) (protherm : String)
        (sqft heat_kbtu : ℚ),
      protherm = "0" → 20000 < heat_kbtu →
      ∃ r ∈ analyze_heating_system c acequipage protherm sqft heat_kbtu,
        r.id = "rec_heating_002") := by
  refine ⟨?_, ?_, ?_, ?_, ?_, ?_, ?_, ?_, ?_, ?_⟩
  · intro c adq_insul attic year_built windows typeglass drafty heat cool sqft r hr
    simp only [analyze_building_envelope, List.mem_append] at hr
    rcases hr with ((h | h) | h) | h
    · obtain ⟨-, h2, rfl⟩ := mem_ite_ite_singleton h
      exact ⟨fun _ => h2, fun hx => absurd hx (by simp),
        fun hx => absurd hx (by simp), fun hx => absurd hx (by simp)⟩
    · obtain ⟨-, h2, rfl⟩ := mem_ite_ite_singleton h
      exact ⟨fun hx => absurd hx (by simp), fun _ => h2,
        fun hx => absurd hx (by simp), fun hx => absurd hx (by simp)⟩
    · obtain ⟨-, h2, rfl⟩ := mem_ite_ite_singleton h
      exact ⟨fun hx => absurd hx (by simp), fun hx => absurd hx (by simp),
        fun _ => h2, fun hx => absurd hx (by simp)⟩
    · obtain ⟨-, h2, rfl⟩ := mem_ite_ite_singleton h
      exact ⟨fun hx => absurd hx (by simp), fun hx => absurd hx (by simp),
        fun hx => absurd hx (by simp), fun _ => h2⟩
  · intro c acequipage protherm sqft heat r hr
    simp only [analyze_heating_system, List.mem_append] at hr
    rcases hr with h | h
    · obtain ⟨-, h2, rfl⟩ := mem_ite_ite_singleton h
      exact fun _ => h2
    · obtain ⟨-, rfl⟩ := mem_ite_singleton h
      exact fun hx => absurd hx (by simp)
  · intro c acequipage cool sqft r hr
    simp only [analyze_cooling_system] at hr
    obtain ⟨-, h2, rfl⟩ := mem_ite_ite_singleton hr
    exact fun _ => h2
  · intro c fuel_h2o wh r hr
    simp only [analyze_water_heating, List.mem_append] at hr
    rcases hr with h | h
    · obtain ⟨-, h2, rfl⟩ := mem_ite_ite_singleton h
      exact ⟨fun _ => h2, fun hx => absurd hx (by simp)⟩
    · obtain ⟨-, h2, rfl⟩ := mem_ite_ite_singleton h
      exact ⟨fun hx => absurd hx (by simp), fun _ => h2⟩
  · intro c num_frig age_frig base r hr
    simp only [analyze_appliances] at hr
    obtain ⟨-, h2, rfl⟩ := mem_ite_ite_singleton hr
    exact fun _ => h2
  · intro c lgtincan r hr
    simp only [analyze_lighting] at hr
    obtain ⟨-, h2, rfl⟩ := mem_ite_ite_singleton hr
    exact fun _ => h2
  · intro c total r hr
    simp only [analyze_renewable_energy] at hr
    obtain ⟨-, h2, rfl⟩ := mem_ite_ite_singleton hr
    exact fun _ => h2
  · intro c smartmeter base r hr
    simp only [analyze_smart_home] at hr
    obtain ⟨-, h2, rfl⟩ := mem_ite_ite_singleton hr
    exact fun _ => h2
  · intro c temphome heat r hr
    simp only [analyze_behavioral] at hr
    obtain ⟨-, h2, rfl⟩ := mem_ite_ite_singleton hr
    exact fun _ => h2
  · intro c acequipage protherm sqft heat hp hh
    simp only [analyze_heating_system]
    rw [if_pos (And.intro hp hh)]
    exact ⟨_, List.mem_append_right _ (List.mem_singleton.mpr rfl), rfl⟩

/-- Witness for the amended C2: with the default calculator, a profile with
no programmable thermostat and heating load 25000 kBTU receives the smart
thermostat recommendation. -/
theorem materiality_gates_amended_witness :
    ∃ r ∈ analyze_heating_system default_calculator 3 "0" 2000 25000,
      r.id = "rec_heating_002" :=
  materiality_gates_amended.2.2.2.2.2.2.2.2.2 default_calculator 3 "0" 2000 25000
    rfl (by norm_num)

end EnergyAudit
